import Mathlib

/-!
Verification of the token-lifecycle / identity subsystem of
`auth-service-grpc-golang` against its natural-language specification.

The Go sources are embedded shallowly:
* pure helpers (`strings.Fields`, `strings.Contains`, `strings.ToLower`)
  become Lean functions over `List Char`;
* the MongoDB collection becomes a `List DBResponse` with the unique index
  on `email` enforced by `insertOne` (the service creates that index,
  `services/auth.service.impl.go`);
* collaborators the controllers call (token codec, password hasher, user
  lookup) become function parameters, so theorems quantify over them;
* Go's write-then-fall-through on a `gin.Context` is modelled by a list of
  JSON writes, and the out-of-range index in the middleware by a dedicated
  `panicked` outcome.
-/

namespace AuthService

/-! ## Go string helpers -/

/-- A character-list prefix test, the building block for the substring
test below. `listStartsWith s p` is true when `p` is a prefix of `s`. -/
def listStartsWith : List Char → List Char → Bool
  | _, [] => true
  | [], _ :: _ => false
  | a :: as, b :: bs => a = b && listStartsWith as bs

/-- Does the pattern occur at some position of the character list? -/
def containsAux (pat : List Char) : List Char → Bool
  | [] => listStartsWith [] pat
  | c :: cs => listStartsWith (c :: cs) pat || containsAux pat cs

/-- Go `strings.Contains s pat`: does `pat` occur as a substring of `s`? -/
def goContains (s pat : String) : Bool :=
  containsAux pat.data s.data

/-- Accumulator pass behind `goFields`; splits on runs of whitespace. -/
def fieldsAux : List Char → List Char → List String
  | [], acc => if acc.isEmpty then [] else [String.mk acc.reverse]
  | c :: cs, acc =>
    if c.isWhitespace then
      if acc.isEmpty then fieldsAux cs [] else String.mk acc.reverse :: fieldsAux cs []
    else fieldsAux cs (c :: acc)

/-- Go `strings.Fields`: the whitespace-separated fields of a string. -/
def goFields (s : String) : List String :=
  fieldsAux s.data []

/-- Go `strings.ToLower` restricted to ASCII, which is all the sources use. -/
def goToLower (s : String) : String :=
  String.mk (s.data.map Char.toLower)

/-! ## Data model (`models/user.model.go`, `src/unnamed/part_002`) -/

/-- `models.SignUpInput`: the registration request body. -/
structure SignUpInput where
  name : String
  email : String
  password : String
  confirmPassword : String
  role : String
  verified : Bool
  createdAt : Nat
  updatedAt : Nat
deriving DecidableEq, Repr

/-- `models.SignInInput`: the login request body. -/
structure SignInInput where
  email : String
  password : String
deriving DecidableEq, Repr

/-- `models.DBResponse`: a stored user document (note the source's
`CreateAt` field name). -/
structure DBResponse where
  id : String
  name : String
  email : String
  password : String
  confirmPassword : String
  role : String
  verified : Bool
  createAt : Nat
  updatedAt : Nat
deriving DecidableEq, Repr

/-- `models.UserResponse`: the public projection of a user. -/
structure UserResponse where
  id : String
  name : String
  email : String
  role : String
  createdAt : Nat
  updatedAt : Nat
deriving DecidableEq, Repr

/-- `models.FilteredResponse`: projects a stored document onto the public
fields only (`src/unnamed/part_002`). -/
def FilteredResponse (user : DBResponse) : UserResponse :=
  { id := user.id
    name := user.name
    email := user.email
    role := user.role
    createdAt := user.createAt
    updatedAt := user.updatedAt }

/-! ## Persistence collaborator

The spec's identity store: `insert` fails with a duplicate-key error on a
unique-index violation (the service installs a unique index on `email`),
`findOne` queries by field equality. -/

/-- Error from the document store's insert. `duplicateKey` models a
MongoDB `WriteException` with code 11000. -/
inductive InsertError where
  | duplicateKey
  | other (msg : String)
deriving DecidableEq, Repr

/-- `collection.InsertOne` with the unique index on `email` in force. -/
def insertOne (store : List DBResponse) (doc : DBResponse) :
    Except InsertError (List DBResponse) :=
  if store.any (fun d => d.email = doc.email) then
    Except.error InsertError.duplicateKey
  else
    Except.ok (store ++ [doc])

/-- `collection.FindOne` with an `_id` query. -/
def findOneById (store : List DBResponse) (id : String) : Option DBResponse :=
  store.find? (fun d => d.id = id)

/-- Outcome of `UserService.FindUserByEmail` as the controllers see it:
found, `mongo.ErrNoDocuments`, or another storage error. -/
inductive LookupResult where
  | dbFound (u : DBResponse)
  | dbNotFound
  | dbError (msg : String)
deriving DecidableEq, Repr

/-- `UserServiceImpl.FindUserByEmail` (quoted in the repository README):
lower-cases the email, then runs a `FindOne` on the `email` field;
a miss surfaces as `mongo.ErrNoDocuments`. -/
def findUserByEmailImpl (store : List DBResponse) (email : String) : LookupResult :=
  match store.find? (fun d => d.email = goToLower email) with
  | some u => LookupResult.dbFound u
  | none => LookupResult.dbNotFound

/-! ## Auth service (`services/auth.service.impl.go`) -/

/-- The field updates `AuthServiceImpl.SignUpUser` performs on the request
before inserting it: stamps times, lower-cases the email, clears the
confirm-password, forces `verified = true` and `role = "user"`, and
replaces the password by its hash. -/
def prepareSignUp (now : Nat) (hash : String → String) (u : SignUpInput) : SignUpInput :=
  { u with
    createdAt := now
    updatedAt := now
    email := goToLower u.email
    confirmPassword := ""
    verified := true
    role := "user"
    password := hash u.password }

/-- The document handed to `InsertOne` (the prepared request plus the
generated `_id`). -/
def signUpDoc (newId : String) (u : SignUpInput) : DBResponse :=
  { id := newId
    name := u.name
    email := u.email
    password := u.password
    confirmPassword := u.confirmPassword
    role := u.role
    verified := u.verified
    createAt := u.createdAt
    updatedAt := u.updatedAt }

/-- `AuthServiceImpl.SignUpUser`: prepares the record, inserts it (a
duplicate-key violation is mapped to the message
`"user with this email already is existed"`, any other insert error is
passed through), then reads the inserted document back. Returns the
updated store together with that document. -/
def svcSignUpUser (now : Nat) (hash : String → String) (newId : String)
    (store : List DBResponse) (user : SignUpInput) :
    Except String (List DBResponse × DBResponse) :=
  let prepared := prepareSignUp now hash user
  match insertOne store (signUpDoc newId prepared) with
  | Except.error InsertError.duplicateKey =>
      Except.error "user with this email already is existed"
  | Except.error (InsertError.other m) => Except.error m
  | Except.ok store2 =>
      match findOneById store2 newId with
      | none => Except.error "mongo: no documents in result"
      | some nu => Except.ok (store2, nu)

/-! ## Transport-level artifacts -/

/-- A `ctx.SetCookie` directive as the Go transport layer receives it. -/
structure SetCookie where
  name : String
  value : String
  maxAge : Nat
  path : String
  domain : String
  secure : Bool
  httpOnly : Bool
deriving DecidableEq, Repr

/-- One `ctx.JSON` / `ctx.AbortWithStatusJSON` write: HTTP status, the
`status` tag of the body, the `message` field, and the `user` payload of
a successful registration. -/
structure JsonWrite where
  status : Nat
  tag : String
  message : String
  userPayload : Option UserResponse
deriving DecidableEq, Repr

/-- `gin` key/config material the controllers draw from `LoadConfig`. -/
structure AppConfig where
  accessTokenPrivateKey : String
  accessTokenPublicKey : String
  refreshTokenPrivateKey : String
  refreshTokenPublicKey : String
  accessTokenExpiredIn : Nat
  refreshTokenExpiredIn : Nat
  accessTokenMaxAge : Nat
  refreshTokenMaxAge : Nat
deriving DecidableEq, Repr

/-! ## Auth controller (`controllers/auth.controller.go`) -/

/-- Observable outcome of `AuthController.SignUpUser`: the ordered JSON
writes, the resulting store, and whether the persistence insert was
reached. -/
structure SignUpOutcome where
  writes : List JsonWrite
  store : List DBResponse
  insertCalled : Bool
deriving DecidableEq, Repr

/-- `AuthController.SignUpUser`. `body = none` models a
`ShouldBindJSON` failure (its message is transport-generated). The
password/confirm-password comparison writes a failure response but — as
in the source — does not return, so control falls through to the service
call. The service error is routed on a `strings.Contains` test for
`"email already exist"`: a hit gives 409, anything else 502. -/
def ctrlSignUpUser (now : Nat) (hash : String → String) (newId : String)
    (store : List DBResponse) (body : Option SignUpInput) : SignUpOutcome :=
  match body with
  | none => { writes := [⟨400, "fail", "invalid request body", none⟩]
              store := store
              insertCalled := false }
  | some user =>
    let mismatchWrites : List JsonWrite :=
      if user.password ≠ user.confirmPassword then
        [⟨400, "fail", "Confirm Passwords do not match", none⟩]
      else []
    match svcSignUpUser now hash newId store user with
    | Except.error msg =>
        if goContains msg "email already exist" then
          { writes := mismatchWrites ++ [⟨409, "error", msg, none⟩]
            store := store
            insertCalled := true }
        else
          { writes := mismatchWrites ++ [⟨502, "error", msg, none⟩]
            store := store
            insertCalled := true }
    | Except.ok (store2, newUser) =>
        { writes := mismatchWrites ++ [⟨201, "success", "", some (FilteredResponse newUser)⟩]
          store := store2
          insertCalled := true }

/-- Observable outcome of `SignInUser` / `RefreshAccessToken`: one JSON
response, the cookies set, and — for the frame claims — the trace of
`utils.CreateToken` calls as (TTL, subject, private key) triples. -/
structure TokenEndpointResult where
  status : Nat
  tag : String
  message : String
  accessToken : Option String
  cookies : List SetCookie
  mints : List (Nat × String × String)
deriving DecidableEq, Repr

/-- `AuthController.SignInUser`. Collaborators: `findUserByEmail` (the
user service), `verifyPasswordOk` (Go's `utils.VerifyPassword`, `true` on
match), `createToken` (`utils.CreateToken`). A missing account
(`mongo.ErrNoDocuments`) and a failed password verification both answer
400 with `"Invalid email or password"`; success mints the access and
refresh tokens with their own keys and sets the three cookies. -/
def ctrlSignInUser (findUserByEmail : String → LookupResult)
    (verifyPasswordOk : String → String → Bool)
    (createToken : Nat → String → String → Except String String)
    (cfg : AppConfig) (creds : SignInInput) : TokenEndpointResult :=
  match findUserByEmail creds.email with
  | LookupResult.dbNotFound =>
      ⟨400, "fail", "Invalid email or password", none, [], []⟩
  | LookupResult.dbError m => ⟨400, "fail", m, none, [], []⟩
  | LookupResult.dbFound user =>
    if verifyPasswordOk user.password creds.password = false then
      ⟨400, "fail", "Invalid email or password", none, [], []⟩
    else
      let mint1 := (cfg.accessTokenExpiredIn, user.id, cfg.accessTokenPrivateKey)
      match createToken cfg.accessTokenExpiredIn user.id cfg.accessTokenPrivateKey with
      | Except.error e => ⟨400, "fail", e, none, [], [mint1]⟩
      | Except.ok atok =>
        let mint2 := (cfg.refreshTokenExpiredIn, user.id, cfg.refreshTokenPrivateKey)
        match createToken cfg.refreshTokenExpiredIn user.id cfg.refreshTokenPrivateKey with
        | Except.error e => ⟨400, "fail", e, none, [], [mint1, mint2]⟩
        | Except.ok rtok =>
          ⟨200, "success", "", some atok,
            [⟨"access_token", atok, cfg.accessTokenMaxAge * 60, "/", "localhost", false, true⟩,
             ⟨"refresh_token", rtok, cfg.refreshTokenMaxAge * 60, "/", "localhost", false, true⟩,
             ⟨"logged_in", "true", cfg.accessTokenMaxAge * 60, "/", "localhost", false, false⟩],
            [mint1, mint2]⟩

/-- `AuthController.RefreshAccessToken`. Reads the `refresh_token`
cookie, verifies it against the refresh public key, re-resolves the user
by the token's subject, and mints a new access token with the access
private key. Only the `access_token` and `logged_in` cookies are set. -/
def ctrlRefreshAccessToken (validateToken : String → String → Except String String)
    (findUserById : String → Option DBResponse)
    (createToken : Nat → String → String → Except String String)
    (cfg : AppConfig) (refreshCookie : Option String) : TokenEndpointResult :=
  match refreshCookie with
  | none => ⟨403, "fail", "could not refresh access tokens.", none, [], []⟩
  | some cookie =>
    match validateToken cookie cfg.refreshTokenPublicKey with
    | Except.error e => ⟨403, "fail", e, none, [], []⟩
    | Except.ok sub =>
      match findUserById sub with
      | none =>
          ⟨403, "fail", "the user belonging to this token no longer exists", none, [], []⟩
      | some user =>
        let mint1 := (cfg.accessTokenExpiredIn, user.id, cfg.accessTokenPrivateKey)
        match createToken cfg.accessTokenExpiredIn user.id cfg.accessTokenPrivateKey with
        | Except.error e => ⟨403, "fail", e, none, [], [mint1]⟩
        | Except.ok atok =>
          ⟨200, "success", "", some atok,
            [⟨"access_token", atok, cfg.accessTokenMaxAge * 60, "/", "localhost", false, true⟩,
             ⟨"logged_in", "true", cfg.accessTokenMaxAge * 60, "/", "localhost", false, false⟩],
            [mint1]⟩

/-! ## Identity-resolving middleware (`middleware/deserialize-user.go`,
`src/unnamed/part_001`) -/

/-- The part of the inbound request the middleware inspects. -/
structure MWRequest where
  authorization : String
  accessTokenCookie : Option String
deriving DecidableEq, Repr

/-- Outcome of `DeserializeUser` on one request. `panicked` marks the
out-of-range index `fields[1]` in the source, which crashes the handler
instead of producing a response. -/
inductive MWOutcome where
  | panicked
  | rejected (status : Nat) (message : String)
  | authenticated (user : DBResponse)
deriving DecidableEq, Repr

/-- The second half of `middleware.DeserializeUser`, from the
`accessToken == ""` test on: an empty candidate rejects with
`"You are not logged in!"`; a verification error rejects with that error;
a failed user lookup rejects with
`"The user belonging to this token no longer exists!"`; otherwise the
user is attached to the context. -/
def resolveCandidate (validateToken : String → String → Except String String)
    (findUserById : String → Option DBResponse)
    (cfg : AppConfig) (accessToken : String) : MWOutcome :=
  if accessToken = "" then
    MWOutcome.rejected 401 "You are not logged in!"
  else
    match validateToken accessToken cfg.accessTokenPublicKey with
    | Except.error e => MWOutcome.rejected 401 e
    | Except.ok sub =>
      match findUserById sub with
      | none =>
          MWOutcome.rejected 401 "The user belonging to this token no longer exists!"
      | some user => MWOutcome.authenticated user

/-- `middleware.DeserializeUser`. Splits the `Authorization` header into
fields; when the first field is `"Bearer"` the source reads `fields[1]`
unconditionally (out of range — `panicked` — when there is no second
field); otherwise it falls back to the `access_token` cookie (the empty
string when the cookie is absent), then resolves the candidate. -/
def deserializeUser (validateToken : String → String → Except String String)
    (findUserById : String → Option DBResponse)
    (cfg : AppConfig) (req : MWRequest) : MWOutcome :=
  let fields := goFields req.authorization
  if fields.head? = some "Bearer" then
    match fields.get? 1 with
    | none => MWOutcome.panicked
    | some tok => resolveCandidate validateToken findUserById cfg tok
  else
    resolveCandidate validateToken findUserById cfg
      (match req.accessTokenCookie with | some c => c | none => "")

/-- A downstream handler guarded by the middleware: on rejection the
abort short-circuits and the handler never runs; on success the handler
receives the attached user; a panic produces no response at all. -/
def withDeserializeUser (validateToken : String → String → Except String String)
    (findUserById : String → Option DBResponse) (cfg : AppConfig)
    (handler : DBResponse → JsonWrite) (req : MWRequest) : Option JsonWrite :=
  match deserializeUser validateToken findUserById cfg req with
  | MWOutcome.panicked => none
  | MWOutcome.rejected s m => some ⟨s, "fail", m, none⟩
  | MWOutcome.authenticated user => some (handler user)

/-! ## User controller (`controllers/user.controller.go`) -/

/-- `UserController.GetMe`: answers 200 with the filtered projection of
the principal the middleware attached. -/
def ctrlGetMe (currentUser : DBResponse) : JsonWrite :=
  ⟨200, "success", "", some (FilteredResponse currentUser)⟩

/-! ## Password hasher

Modelled from the spec: `utils/password.go` (`HashPassword` /
`VerifyPassword`) delegates to the external `golang.org/x/crypto/bcrypt`
library, whose internals are not part of this repository. Following the
spec's PasswordHasher contract, a hash embeds a salt drawn at hashing
time together with a one-way digest of salt and secret; verification
recomputes the digest from the embedded salt and compares. The one-way
function is a parameter `mac : salt → secret → digest`; the spec's
"with overwhelming probability" collision-freedom becomes an explicit
hypothesis on `mac` where a theorem needs it. -/

/-- A stored hash: the embedded salt and the digest. -/
structure HashedSecret where
  salt : String
  digest : String
deriving DecidableEq, Repr

/-- `HashPassword` at a given salt draw. -/
def hashPassword (mac : String → String → String) (salt password : String) :
    HashedSecret :=
  { salt := salt, digest := mac salt password }

/-- `VerifyPassword`: recompute with the embedded salt and compare. -/
def verifyPassword (mac : String → String → String) (stored : HashedSecret)
    (candidate : String) : Bool :=
  stored.digest = mac stored.salt candidate

/-! ## Concrete fixtures

Closed instantiations of the collaborator parameters, used by the
counterexamples and by the witnesses of the conditional theorems. -/

/-- A deterministic stand-in for the password hash collaborator. -/
def demoHash (s : String) : String :=
  String.append "hashed:" s

/-- The matching stand-in for password verification. -/
def demoVerify (stored candidate : String) : Bool :=
  stored = demoHash candidate

/-- A stand-in token codec: always succeeds, token records subject and key. -/
def demoCreateToken (ttl : Nat) (sub key : String) : Except String String :=
  Except.ok (String.append sub (String.append "@" (String.append key (toString ttl))))

/-- A stand-in verifier that accepts every token and returns it as subject. -/
def demoValidate (tok : String) (_key : String) : Except String String :=
  Except.ok tok

/-- A user lookup that finds nobody. -/
def demoFindNone (_id : String) : Option DBResponse :=
  none

/-- A fixed stored user document. -/
def demoUser : DBResponse :=
  ⟨"id1", "Tom", "a@x.com", demoHash "secret123", "", "user", true, 0, 0⟩

/-- A user lookup that always finds `demoUser`. -/
def demoFindSome (_id : String) : Option DBResponse :=
  some demoUser

/-- A fixed key/TTL configuration. -/
def demoConfig : AppConfig :=
  ⟨"accPriv", "accPub", "refPriv", "refPub", 15, 60, 30, 120⟩

/-- A fixed well-formed registration request. -/
def demoSignUp : SignUpInput :=
  ⟨"Tom", "A@X.com", "secret123", "secret123", "", false, 0, 0⟩

/-- A fixed downstream handler for the middleware theorems. -/
def demoHandler (u : DBResponse) : JsonWrite :=
  ⟨200, "success", "", some (FilteredResponse u)⟩

/-- A concrete one-way function for the password-hasher witnesses:
collision-free in the secret for any fixed salt. -/
def demoMac (salt secret : String) : String :=
  String.append salt (String.append "|" secret)

/-- An email lookup behind which no account exists. -/
def demoLookupNone (_email : String) : LookupResult :=
  LookupResult.dbNotFound

/-- An email lookup that resolves every identifier to `demoUser`. -/
def demoLookupSome (_email : String) : LookupResult :=
  LookupResult.dbFound demoUser

/-! ## Theorems -/

/-- Claim C1 (refuted — the code inserts anyway): the spec requires that
a registration whose password and confirm-password differ fails with the
mismatch error and creates no account. In the source the mismatch branch
writes the failure response but does not return, so the service is still
called: on a concrete mismatching request against an empty store, the
mismatch write is followed by a success write, the insert is reached, and
the account is persisted. -/
theorem signUpUser_password_mismatch_still_inserts :
    (ctrlSignUpUser 0 demoHash "id1" []
        (some ⟨"Tom", "a@x.com", "secret123", "different", "", false, 0, 0⟩)).writes =
      [⟨400, "fail", "Confirm Passwords do not match", none⟩,
       ⟨201, "success", "", some ⟨"id1", "Tom", "a@x.com", "user", 0, 0⟩⟩] ∧
    (ctrlSignUpUser 0 demoHash "id1" []
        (some ⟨"Tom", "a@x.com", "secret123", "different", "", false, 0, 0⟩)).store =
      [⟨"id1", "Tom", "a@x.com", demoHash "secret123", "", "user", true, 0, 0⟩] ∧
    (ctrlSignUpUser 0 demoHash "id1" []
        (some ⟨"Tom", "a@x.com", "secret123", "different", "", false, 0, 0⟩)).insertCalled =
      true := by
  decide

/-- Claim C2 (refuted — the duplicate is not distinguishable): the
service maps a duplicate-key violation to the message
`"user with this email already is existed"`, but the controller routes on
`strings.Contains(err, "email already exist")`, which that message does
not contain. Registering the same identifier twice therefore surfaces the
second call as the generic 502 storage-failure response, not as the 409
conflict. -/
theorem signUpUser_duplicate_not_distinguished :
    goContains "user with this email already is existed" "email already exist" = false ∧
    (ctrlSignUpUser 0 demoHash "id2"
        (ctrlSignUpUser 0 demoHash "id1" []
          (some ⟨"Ann", "a@x.com", "secret123", "secret123", "", false, 0, 0⟩)).store
        (some ⟨"Ann", "a@x.com", "secret123", "secret123", "", false, 0, 0⟩)).writes =
      [⟨502, "error", "user with this email already is existed", none⟩] := by
  decide

/-- Claim C3 (refuted — the middleware can crash): on a request whose
`Authorization` header is exactly `"Bearer"` with no token after it, the
source indexes `fields[1]` out of range and the handler panics instead of
returning a typed outcome. -/
theorem deserializeUser_panics_on_bare_bearer_header :
    deserializeUser demoValidate demoFindNone demoConfig ⟨"Bearer", none⟩ =
      MWOutcome.panicked := by
  decide

/-- Claim C5, counterexample: on a request carrying the header
`"Bearer"` with no token and a usable access-token cookie, the middleware
reaches neither of the machine's terminal states — it panics, and the
guarded pipeline produces no response at all — so the middleware does not
implement the four-step state machine for every request. -/
theorem deserializeUser_bearer_without_token_no_terminal_state :
    deserializeUser demoValidate demoFindSome demoConfig ⟨"Bearer", some "tok"⟩ =
      MWOutcome.panicked ∧
    withDeserializeUser demoValidate demoFindSome demoConfig demoHandler
      ⟨"Bearer", some "tok"⟩ = none := by
  decide

/-- Unfolding lemma for `deserializeUser`. -/
theorem deserializeUser_eq (v : String → String → Except String String)
    (f : String → Option DBResponse) (cfg : AppConfig) (req : MWRequest) :
    deserializeUser v f cfg req =
      if (goFields req.authorization).head? = some "Bearer" then
        match (goFields req.authorization).get? 1 with
        | none => MWOutcome.panicked
        | some tok => resolveCandidate v f cfg tok
      else
        resolveCandidate v f cfg
          (match req.accessTokenCookie with | some c => c | none => "") :=
  rfl

/-- `resolveCandidate` always reaches a terminal machine state. -/
theorem resolveCandidate_ne_panicked (v : String → String → Except String String)
    (f : String → Option DBResponse) (cfg : AppConfig) (tok : String) :
    resolveCandidate v f cfg tok ≠ MWOutcome.panicked := by
  unfold resolveCandidate
  by_cases h : tok = ""
  · simp [h]
  · simp only [if_neg h]
    cases v tok cfg.accessTokenPublicKey with
    | error e => simp
    | ok sub => cases hf : f sub <;> simp [hf]

/-- Claim C5 (amended): for every request whose `Authorization` header
does not consist of the single field `"Bearer"` with no token after it
(on that one header shape the source panics instead, see the
counterexample), the middleware implements the four-step state machine:
the candidate token is the Bearer header's token when the header leads
with `"Bearer"`, otherwise the access-token cookie; with no Bearer header
and no cookie it rejects with the not-logged-in error (as it does for an
empty candidate); a verification failure rejects with that failure; a
verified token whose subject is not found rejects with the
principal-gone error; a found principal is attached and handed to the
downstream handler; and every rejection is terminal — the downstream
handler never runs and the rejection is the whole response. -/
theorem deserializeUser_state_machine (v : String → String → Except String String)
    (f : String → Option DBResponse) (cfg : AppConfig) (req : MWRequest)
    (hnp : goFields req.authorization ≠ ["Bearer"]) :
    deserializeUser v f cfg req ≠ MWOutcome.panicked ∧
    (∀ tok rest, goFields req.authorization = "Bearer" :: tok :: rest →
      deserializeUser v f cfg req = resolveCandidate v f cfg tok) ∧
    ((goFields req.authorization).head? ≠ some "Bearer" →
      ∀ c, req.accessTokenCookie = some c →
        deserializeUser v f cfg req = resolveCandidate v f cfg c) ∧
    ((goFields req.authorization).head? ≠ some "Bearer" →
      req.accessTokenCookie = none →
        deserializeUser v f cfg req = MWOutcome.rejected 401 "You are not logged in!") ∧
    (∀ e tok, tok ≠ "" → v tok cfg.accessTokenPublicKey = Except.error e →
      resolveCandidate v f cfg tok = MWOutcome.rejected 401 e) ∧
    (∀ sub tok, tok ≠ "" → v tok cfg.accessTokenPublicKey = Except.ok sub →
      f sub = none →
      resolveCandidate v f cfg tok =
        MWOutcome.rejected 401 "The user belonging to this token no longer exists!") ∧
    (∀ sub tok u, tok ≠ "" → v tok cfg.accessTokenPublicKey = Except.ok sub →
      f sub = some u →
      resolveCandidate v f cfg tok = MWOutcome.authenticated u) ∧
    (∀ s m, deserializeUser v f cfg req = MWOutcome.rejected s m →
      ∀ handler, withDeserializeUser v f cfg handler req = some ⟨s, "fail", m, none⟩) ∧
    (∀ u, deserializeUser v f cfg req = MWOutcome.authenticated u →
      ∀ handler, withDeserializeUser v f cfg handler req = some (handler u)) := by
  refine ⟨?_, ?_, ?_, ?_, ?_, ?_, ?_, ?_, ?_⟩
  · rw [deserializeUser_eq]
    by_cases hb : (goFields req.authorization).head? = some "Bearer"
    · rw [if_pos hb]
      cases hg : goFields req.authorization with
      | nil => rw [hg] at hb; simp at hb
      | cons a t =>
        have ha : a = "Bearer" := by rw [hg] at hb; simpa using hb
        cases t with
        | nil => exact absurd (by rw [hg, ha]) hnp
        | cons b t2 => simpa [hg] using resolveCandidate_ne_panicked v f cfg b
    · rw [if_neg hb]
      exact resolveCandidate_ne_panicked v f cfg _
  · intro tok rest hg
    rw [deserializeUser_eq, hg]
    simp
  · intro hb c hc
    rw [deserializeUser_eq, if_neg hb, hc]
  · intro hb hc
    rw [deserializeUser_eq, if_neg hb, hc]
    simp [resolveCandidate]
  · intro e tok htok hv
    simp [resolveCandidate, htok, hv]
  · intro sub tok htok hv hf
    simp [resolveCandidate, htok, hv, hf]
  · intro sub tok u htok hv hf
    simp [resolveCandidate, htok, hv, hf]
  · intro s m h handler
    simp [withDeserializeUser, h]
  · intro u h handler
    simp [withDeserializeUser, h]

/-- Claim C5, witness: the amended state machine evaluated on a request
carrying `"Bearer abc"` against collaborators that accept the token and
resolve its subject to `demoUser`: the candidate is `"abc"`, the
resolution authenticates `demoUser`, and the downstream handler runs on
it. -/
theorem deserializeUser_state_machine_witness :
    goFields "Bearer abc" ≠ ["Bearer"] ∧
    deserializeUser demoValidate demoFindSome demoConfig ⟨"Bearer abc", none⟩ =
      resolveCandidate demoValidate demoFindSome demoConfig "abc" ∧
    resolveCandidate demoValidate demoFindSome demoConfig "abc" =
      MWOutcome.authenticated demoUser ∧
    withDeserializeUser demoValidate demoFindSome demoConfig demoHandler
      ⟨"Bearer abc", none⟩ = some (demoHandler demoUser) := by
  have h := deserializeUser_state_machine demoValidate demoFindSome demoConfig
    ⟨"Bearer abc", none⟩ (by decide)
  have e1 : deserializeUser demoValidate demoFindSome demoConfig ⟨"Bearer abc", none⟩ =
      resolveCandidate demoValidate demoFindSome demoConfig "abc" :=
    h.2.1 "abc" [] (by decide)
  have e2 : resolveCandidate demoValidate demoFindSome demoConfig "abc" =
      MWOutcome.authenticated demoUser :=
    h.2.2.2.2.2.2.1 "abc" "abc" demoUser (by decide) rfl rfl
  exact ⟨by decide, e1, e2, h.2.2.2.2.2.2.2.2 demoUser (e1.trans e2) demoHandler⟩

/-- Claim C4: a login whose identifier resolves to no account and a login
whose identifier resolves to an account but whose candidate password
fails verification produce exactly the same observable outcome — the
400 response with `"Invalid email or password"`, no cookies, no tokens —
so the response does not reveal account existence. -/
theorem signInUser_indistinguishable (vp : String → String → Bool)
    (ct : Nat → String → String → Except String String) (cfg : AppConfig)
    (lookupA lookupB : String → LookupResult)
    (creds : SignInInput) (u : DBResponse)
    (hA : lookupA creds.email = LookupResult.dbNotFound)
    (hB : lookupB creds.email = LookupResult.dbFound u)
    (hvp : vp u.password creds.password = false) :
    ctrlSignInUser lookupA vp ct cfg creds = ctrlSignInUser lookupB vp ct cfg creds ∧
    ctrlSignInUser lookupA vp ct cfg creds =
      ⟨400, "fail", "Invalid email or password", none, [], []⟩ := by
  constructor
  · simp [ctrlSignInUser, hA, hB, hvp]
  · simp [ctrlSignInUser, hA]

/-- Claim C4, witness: the no-such-account lookup and the
`demoUser`-with-wrong-password lookup answer the same concrete login
request identically. -/
theorem signInUser_indistinguishable_witness :
    demoLookupNone "a@x.com" = LookupResult.dbNotFound ∧
    demoLookupSome "a@x.com" = LookupResult.dbFound demoUser ∧
    demoVerify demoUser.password "wrongpass" = false ∧
    ctrlSignInUser demoLookupNone demoVerify demoCreateToken demoConfig
        ⟨"a@x.com", "wrongpass"⟩ =
      ctrlSignInUser demoLookupSome demoVerify demoCreateToken demoConfig
        ⟨"a@x.com", "wrongpass"⟩ ∧
    ctrlSignInUser demoLookupNone demoVerify demoCreateToken demoConfig
        ⟨"a@x.com", "wrongpass"⟩ =
      ⟨400, "fail", "Invalid email or password", none, [], []⟩ := by
  have h := signInUser_indistinguishable demoVerify demoCreateToken demoConfig
    demoLookupNone demoLookupSome ⟨"a@x.com", "wrongpass"⟩ demoUser rfl rfl (by decide)
  exact ⟨rfl, rfl, by decide, h.1, h.2⟩

/-- Claim C6: on a successful refresh (the cookie verifies against the
refresh public key, the subject resolves to a principal, the mint
succeeds), exactly one token is minted — an access token, with the
access TTL and access private key — and delivered in the body and the
`access_token` cookie; no cookie named `refresh_token` is set, so the
refresh token is neither rotated nor re-issued and its transport
artifact is untouched. -/
theorem refreshAccessToken_frame (vt : String → String → Except String String)
    (fId : String → Option DBResponse)
    (ct : Nat → String → String → Except String String)
    (cfg : AppConfig) (cookie sub : String) (u : DBResponse) (atok : String)
    (hv : vt cookie cfg.refreshTokenPublicKey = Except.ok sub)
    (hf : fId sub = some u)
    (hc : ct cfg.accessTokenExpiredIn u.id cfg.accessTokenPrivateKey = Except.ok atok) :
    ctrlRefreshAccessToken vt fId ct cfg (some cookie) =
      ⟨200, "success", "", some atok,
        [⟨"access_token", atok, cfg.accessTokenMaxAge * 60, "/", "localhost", false, true⟩,
         ⟨"logged_in", "true", cfg.accessTokenMaxAge * 60, "/", "localhost", false, false⟩],
        [(cfg.accessTokenExpiredIn, u.id, cfg.accessTokenPrivateKey)]⟩ ∧
    (∀ c ∈ (ctrlRefreshAccessToken vt fId ct cfg (some cookie)).cookies,
      c.name ≠ "refresh_token") ∧
    (∀ m ∈ (ctrlRefreshAccessToken vt fId ct cfg (some cookie)).mints,
      m.1 = cfg.accessTokenExpiredIn ∧ m.2.2 = cfg.accessTokenPrivateKey) := by
  have he : ctrlRefreshAccessToken vt fId ct cfg (some cookie) =
      ⟨200, "success", "", some atok,
        [⟨"access_token", atok, cfg.accessTokenMaxAge * 60, "/", "localhost", false, true⟩,
         ⟨"logged_in", "true", cfg.accessTokenMaxAge * 60, "/", "localhost", false, false⟩],
        [(cfg.accessTokenExpiredIn, u.id, cfg.accessTokenPrivateKey)]⟩ := by
    simp [ctrlRefreshAccessToken, hv, hf, hc]
  refine ⟨he, ?_, ?_⟩
  · intro c hcmem
    rw [he] at hcmem
    simp at hcmem
    rcases hcmem with rfl | rfl <;> simp
  · intro m hmmem
    rw [he] at hmmem
    simp at hmmem
    rw [hmmem]
    exact ⟨rfl, rfl⟩

/-- Claim C6, witness: a concrete successful refresh mints only the
access token `"id1@accPriv15"` and sets only the `access_token` and
`logged_in` cookies. -/
theorem refreshAccessToken_frame_witness :
    demoValidate "rtok" demoConfig.refreshTokenPublicKey = Except.ok "rtok" ∧
    demoFindSome "rtok" = some demoUser ∧
    ctrlRefreshAccessToken demoValidate demoFindSome demoCreateToken demoConfig
        (some "rtok") =
      ⟨200, "success", "", some "id1@accPriv15",
        [⟨"access_token", "id1@accPriv15", 1800, "/", "localhost", false, true⟩,
         ⟨"logged_in", "true", 1800, "/", "localhost", false, false⟩],
        [(15, "id1", "accPriv")]⟩ := by
  have h := refreshAccessToken_frame demoValidate demoFindSome demoCreateToken demoConfig
    "rtok" "rtok" demoUser "id1@accPriv15" rfl rfl rfl
  exact ⟨rfl, rfl, h.1⟩

/-- Inserting into the empty store succeeds and the read-back returns the
prepared document. -/
theorem svcSignUpUser_empty_store (now : Nat) (hash : String → String)
    (newId : String) (reg : SignUpInput) :
    svcSignUpUser now hash newId [] reg =
      Except.ok ([signUpDoc newId (prepareSignUp now hash reg)],
        signUpDoc newId (prepareSignUp now hash reg)) := by
  simp [svcSignUpUser, insertOne, findOneById, signUpDoc, List.find?]

/-- Claim C7: the identifier of a login request is lower-cased before the
principal lookup — lookups agree on any two identifiers with the same
lower-casing — so after registering with an identifier (stored
lower-cased), a login whose identifier differs only in letter case
succeeds with the correct password, minting the token pair for the
registered account. -/
theorem signInUser_case_insensitive (now : Nat) (hash : String → String)
    (vp : String → String → Bool)
    (ct : Nat → String → String → Except String String)
    (cfg : AppConfig) (newId : String) (reg : SignUpInput) (loginEmail : String)
    (atok rtok : String)
    (hemail : goToLower loginEmail = goToLower reg.email)
    (hvp : vp (hash reg.password) reg.password = true)
    (hat : ct cfg.accessTokenExpiredIn newId cfg.accessTokenPrivateKey = Except.ok atok)
    (hrt : ct cfg.refreshTokenExpiredIn newId cfg.refreshTokenPrivateKey = Except.ok rtok) :
    (∀ store e1 e2, goToLower e1 = goToLower e2 →
      findUserByEmailImpl store e1 = findUserByEmailImpl store e2) ∧
    ctrlSignInUser
        (findUserByEmailImpl [signUpDoc newId (prepareSignUp now hash reg)])
        vp ct cfg ⟨loginEmail, reg.password⟩ =
      ⟨200, "success", "", some atok,
        [⟨"access_token", atok, cfg.accessTokenMaxAge * 60, "/", "localhost", false, true⟩,
         ⟨"refresh_token", rtok, cfg.refreshTokenMaxAge * 60, "/", "localhost", false, true⟩,
         ⟨"logged_in", "true", cfg.accessTokenMaxAge * 60, "/", "localhost", false, false⟩],
        [(cfg.accessTokenExpiredIn, newId, cfg.accessTokenPrivateKey),
         (cfg.refreshTokenExpiredIn, newId, cfg.refreshTokenPrivateKey)]⟩ := by
  constructor
  · intro store e1 e2 h12
    simp [findUserByEmailImpl, h12]
  · have hfind : findUserByEmailImpl [signUpDoc newId (prepareSignUp now hash reg)]
        loginEmail = LookupResult.dbFound (signUpDoc newId (prepareSignUp now hash reg)) := by
      simp [findUserByEmailImpl, List.find?, signUpDoc, prepareSignUp, hemail]
    simp only [ctrlSignInUser]
    rw [hfind]
    simp [signUpDoc, prepareSignUp, hvp, hat, hrt]

/-- Claim C7, witness: registering `"A@X.com"` (stored lower-cased) and
logging in as `"a@x.COM"` with the correct password yields the 200
success response with the token pair. -/
theorem signInUser_case_insensitive_witness :
    goToLower "a@x.COM" = goToLower "A@X.com" ∧
    demoVerify (demoHash "secret123") "secret123" = true ∧
    ctrlSignInUser
        (findUserByEmailImpl [signUpDoc "id1" (prepareSignUp 0 demoHash demoSignUp)])
        demoVerify demoCreateToken demoConfig ⟨"a@x.COM", "secret123"⟩ =
      ⟨200, "success", "", some "id1@accPriv15",
        [⟨"access_token", "id1@accPriv15", 1800, "/", "localhost", false, true⟩,
         ⟨"refresh_token", "id1@refPriv60", 7200, "/", "localhost", false, true⟩,
         ⟨"logged_in", "true", 1800, "/", "localhost", false, false⟩],
        [(15, "id1", "accPriv"), (60, "id1", "refPriv")]⟩ := by
  have h := signInUser_case_insensitive 0 demoHash demoVerify demoCreateToken demoConfig
    "id1" demoSignUp "a@x.COM" "id1@accPriv15" "id1@refPriv60"
    (by decide) (by decide) rfl rfl
  exact ⟨by decide, by decide, h.2⟩

/-- Claim C8: for the password hasher (modelled from the spec over an
arbitrary one-way function `mac`, with the spec's "overwhelming
probability" collision-freedom taken as the hypothesis that `mac` does
not collide on the two candidate secrets at the embedded salt): a hash
verifies against the secret it was built from; it does not verify
against a different secret; and two hashings of the same secret under
distinct salt draws yield different stored hashes, while both still
verify against the original secret. -/
theorem passwordHasher_verify_spec (mac : String → String → String)
    (salt salt2 s s2 : String)
    (hcol : mac salt s ≠ mac salt s2)
    (hsalt : salt ≠ salt2) :
    verifyPassword mac (hashPassword mac salt s) s = true ∧
    verifyPassword mac (hashPassword mac salt s) s2 = false ∧
    hashPassword mac salt s ≠ hashPassword mac salt2 s ∧
    verifyPassword mac (hashPassword mac salt2 s) s = true := by
  refine ⟨?_, ?_, ?_, ?_⟩
  · simp [verifyPassword, hashPassword]
  · simp [verifyPassword, hashPassword, hcol]
  · intro h
    exact hsalt (congrArg HashedSecret.salt h)
  · simp [verifyPassword, hashPassword]

/-- Claim C8, witness: the contract evaluated at the concrete one-way
function `demoMac`, secrets `"secret123"` / `"other"`, and salt draws
`"s1"` / `"s2"`. -/
theorem passwordHasher_verify_spec_witness :
    demoMac "s1" "secret123" ≠ demoMac "s1" "other" ∧
    verifyPassword demoMac (hashPassword demoMac "s1" "secret123") "secret123" = true ∧
    verifyPassword demoMac (hashPassword demoMac "s1" "secret123") "other" = false ∧
    hashPassword demoMac "s1" "secret123" ≠ hashPassword demoMac "s2" "secret123" ∧
    verifyPassword demoMac (hashPassword demoMac "s2" "secret123") "secret123" = true := by
  have h := passwordHasher_verify_spec demoMac "s1" "s2" "secret123" "other"
    (by decide) (by decide)
  exact ⟨by decide, h.1, h.2.1, h.2.2.1, h.2.2.2⟩

/-- Claim C9: the response payloads of the authenticated-profile endpoint
and of a successful registration are produced by `FilteredResponse`,
whose output carries only id, name, email, role and the timestamps: it
is unchanged under any change of the stored password hash (and of the
confirm-password residue), so the response never depends on, nor
contains, the stored hash. -/
theorem filteredResponse_excludes_password (u : DBResponse) (pw cpw : String) :
    FilteredResponse { u with password := pw, confirmPassword := cpw } =
      FilteredResponse u ∧
    ctrlGetMe u = ⟨200, "success", "", some (FilteredResponse u)⟩ ∧
    (∀ now hash newId store input store2 nu,
      svcSignUpUser now hash newId store input = Except.ok (store2, nu) →
      (ctrlSignUpUser now hash newId store (some input)).writes.getLast? =
        some ⟨201, "success", "", some (FilteredResponse nu)⟩) := by
  refine ⟨rfl, rfl, ?_⟩
  intro now hash newId store input store2 nu hsvc
  simp only [ctrlSignUpUser, hsvc]
  rw [List.getLast?_append_cons]
  rfl

/-- Claim C9, witness: the projection drops a changed password hash on
`demoUser`, `GetMe` returns the projection, and the 201 write of a
concrete successful registration carries the projection of the stored
document. -/
theorem filteredResponse_excludes_password_witness :
    FilteredResponse { demoUser with password := "other", confirmPassword := "x" } =
      FilteredResponse demoUser ∧
    ctrlGetMe demoUser = ⟨200, "success", "", some (FilteredResponse demoUser)⟩ ∧
    (ctrlSignUpUser 0 demoHash "id1" [] (some demoSignUp)).writes.getLast? =
      some ⟨201, "success", "",
        some (FilteredResponse (signUpDoc "id1" (prepareSignUp 0 demoHash demoSignUp)))⟩ := by
  have h := filteredResponse_excludes_password demoUser "other" "x"
  exact ⟨h.1, h.2.1, h.2.2 0 demoHash "id1" [] demoSignUp _ _
    (svcSignUpUser_empty_store 0 demoHash "id1" demoSignUp)⟩

/-- Reading back a freshly appended document by its id returns exactly
that document when no stored document already carries the id. -/
theorem findOneById_append_fresh (store : List DBResponse) (doc : DBResponse)
    (h : ∀ d ∈ store, d.id ≠ doc.id) :
    findOneById (store ++ [doc]) doc.id = some doc := by
  induction store with
  | nil => simp [findOneById, List.find?]
  | cons d ds ih =>
    have hd : d.id ≠ doc.id := h d (by simp)
    have hds : ∀ x ∈ ds, x.id ≠ doc.id := fun x hx => h x (by simp [hx])
    simpa [findOneById, List.find?, hd] using ih hds

/-- Claim C10: whatever role, verified flag and confirm-password the
client supplied, the record the service hands to the persistence insert
is the prepared record — role `"user"`, verified `true`, an empty
confirm-password, the password replaced by its hash — and on success the
store grows by exactly that document (read back as the new user). -/
theorem signUpUser_persisted_record_invariants (now : Nat) (hash : String → String)
    (newId : String) (store : List DBResponse) (u : SignUpInput)
    (hfresh : ∀ d ∈ store, d.id ≠ newId) :
    (prepareSignUp now hash u).role = "user" ∧
    (prepareSignUp now hash u).verified = true ∧
    (prepareSignUp now hash u).confirmPassword = "" ∧
    (prepareSignUp now hash u).password = hash u.password ∧
    (∀ store2 nu, svcSignUpUser now hash newId store u = Except.ok (store2, nu) →
      nu = signUpDoc newId (prepareSignUp now hash u) ∧ store2 = store ++ [nu]) := by
  refine ⟨rfl, rfl, rfl, rfl, ?_⟩
  intro store2 nu h
  by_cases hdup :
      store.any (fun d => d.email = (signUpDoc newId (prepareSignUp now hash u)).email)
  · simp [svcSignUpUser, insertOne, hdup] at h
  · have hid : (signUpDoc newId (prepareSignUp now hash u)).id = newId := rfl
    have hfind := findOneById_append_fresh store
      (signUpDoc newId (prepareSignUp now hash u)) (by simpa [hid] using hfresh)
    rw [hid] at hfind
    simp [svcSignUpUser, insertOne, hdup, hfind] at h
    exact ⟨h.2.symm, by rw [h.1.symm, h.2.symm]⟩

/-- Claim C10, witness: the prepared record of the concrete registration
`demoSignUp` (submitted with empty role and `verified = false`) has the
forced defaults, and the successful insert into the empty store persists
exactly that record. -/
theorem signUpUser_persisted_record_invariants_witness :
    (prepareSignUp 0 demoHash demoSignUp).role = "user" ∧
    (prepareSignUp 0 demoHash demoSignUp).verified = true ∧
    (prepareSignUp 0 demoHash demoSignUp).confirmPassword = "" ∧
    (prepareSignUp 0 demoHash demoSignUp).password = demoHash "secret123" ∧
    ∃ store2 nu, svcSignUpUser 0 demoHash "id1" [] demoSignUp = Except.ok (store2, nu) ∧
      nu = signUpDoc "id1" (prepareSignUp 0 demoHash demoSignUp) ∧
      store2 = [] ++ [nu] := by
  have h := signUpUser_persisted_record_invariants 0 demoHash "id1" [] demoSignUp
    (by simp)
  have hs := svcSignUpUser_empty_store 0 demoHash "id1" demoSignUp
  have h5 := h.2.2.2.2 _ _ hs
  exact ⟨h.1, h.2.1, h.2.2.1, h.2.2.2.1, _, _, hs, h5.1, h5.2⟩

end AuthService
